import Mathlib

/-!
Verification model of `windows_assistant.py` (repository `deposit`).

The module is a desktop automation dispatcher: `execute_command` normalizes a
raw text line (strip + lowercase), tries a fixed ordered list of command
shapes, and invokes one side-effecting handler.  A single global browser
session handle is shared by `open_browser` and `fill_form_field`.  `main`
loops reading commands (voice or text) until an exit command, the voice stop
phrase, or a `KeyboardInterrupt`.

The embedding below is a shallow one: every external capability (selenium,
pyautogui, the filesystem, `json.loads`, `requests.post`, ...) is an opaque
oracle recorded in an `Env`; every observable action (log lines, navigation,
process spawn, HTTP POST, ...) is an `Event` appended to a trace.  Exceptions
raised by `sys.exit` are modeled by the `ExecResult.sysExit` outcome, which
`main`'s `except Exception` clauses do not catch (it is a `BaseException` in
Python), so it propagates past the loop and past the session-cleanup block.
All string functions mirror the Python semantics for the ASCII commands the
program understands (`str.lower` is modeled on its ASCII action).
-/

namespace WinAssist

/-! ### Characters and Python string primitives -/
/-- ASCII whitespace recognized by the model of `str.strip` / `str.split()`. -/
def isWS (c : Char) : Bool :=
  c = ' ' || c = '\t' || c = '\n' || c = '\r'

/-- ASCII uppercase test (model of the range `'A'..'Z'`). -/
def isUpperB (c : Char) : Bool :=
  decide (65 ≤ c.toNat ∧ c.toNat ≤ 90)

/-- Model of Python `str.lower` on a single character (ASCII action). -/
def lcChar (c : Char) : Char :=
  if 65 ≤ c.toNat ∧ c.toNat ≤ 90 then Char.ofNat (c.toNat + 32) else c

/-- Strip leading and trailing whitespace from a character list. -/
def stripL (cs : List Char) : List Char :=
  ((cs.dropWhile isWS).reverse.dropWhile isWS).reverse

/-- Model of Python `str.strip()`. -/
def pyStrip (s : String) : String := ⟨stripL s.data⟩

/-- Model of Python `str.lower()` (ASCII action). -/
def pyLower (s : String) : String := ⟨s.data.map lcChar⟩

/-- The dispatcher's normalization: `command.strip().lower()`. -/
def pyNorm (s : String) : String := pyLower (pyStrip s)

/-- Model of Python `str.startswith(p)`. -/
def pyStartsWith (s p : String) : Bool := p.data.isPrefixOf s.data

/-- Drop the first `n` characters (used for the remainder after a matched
verb prefix; `str.partition(p)` on a string that starts with `p` returns
exactly the remainder after `p`). -/
def pyDrop (s : String) (n : Nat) : String := ⟨s.data.drop n⟩

/-- Split a character list on every occurrence of the two-character
separator `"::"`, scanning left to right, non-overlapping — the semantics of
Python `str.split("::")`. -/
def splitDC : List Char → List (List Char)
  | [] => [[]]
  | [c] => [[c]]
  | c1 :: c2 :: rest =>
    if c1 = ':' ∧ c2 = ':' then
      [] :: splitDC rest
    else
      match splitDC (c2 :: rest) with
      | p :: ps => (c1 :: p) :: ps
      | [] => [[c1]]

/-- Model of Python `command.split("::")`. -/
def pySplitDC (s : String) : List String := (splitDC s.data).map String.mk

/-- Split on `"::"` performing at most `n` splits — the semantics of Python
`str.split("::", n)`. -/
def splitDCmax : Nat → List Char → List (List Char)
  | _, [] => [[]]
  | 0, c :: rest => [c :: rest]
  | _ + 1, [c] => [[c]]
  | n + 1, c1 :: c2 :: rest =>
    if c1 = ':' ∧ c2 = ':' then
      [] :: splitDCmax n rest
    else
      match splitDCmax (n + 1) (c2 :: rest) with
      | p :: ps => (c1 :: p) :: ps
      | [] => [[c1]]

/-- Model of Python `command.split("::", 2)`. -/
def pySplitDC2 (s : String) : List String := (splitDCmax 2 s.data).map String.mk

/-- Split on runs of whitespace, discarding empty pieces — the semantics of
Python `str.split()` with no argument. -/
def splitWS : List Char → List (List Char)
  | [] => []
  | c :: rest =>
    let tail := splitWS rest
    if isWS c then tail
    else
      match rest with
      | [] => [[c]]
      | d :: _ => if isWS d then [c] :: tail else (c :: tail.headD []) :: tail.tail

/-- Model of Python `arguments.split()`. -/
def pySplitWS (s : String) : List String := (splitWS s.data).map String.mk

/-- A string with no ASCII uppercase character. -/
def upperFree (s : String) : Bool := s.data.all fun c => !isUpperB c

/-! ### Data model: JSON values, events, environment, state -/
/-- Parsed JSON value, the result type of the opaque `json.loads` capability.
Numbers are modeled as integers; the program never inspects the parsed
payload, it only forwards it to the HTTP capability. -/
inductive JsonVal where
  | null
  | bool (b : Bool)
  | num (n : Int)
  | str (s : String)
  | arr (elems : List JsonVal)
  | obj (fields : List (String × JsonVal))

/-- One observable action of the program.  `log` is a console line (where
Python interpolates runtime data such as an exception text, the model uses a
fixed `<...>` placeholder).  The `call*` events mark the dispatcher invoking
a handler with its extracted arguments; the remaining events are the
external side effects performed inside handlers. -/
inductive Event where
  | log (msg : String)
  | callOpenBrowser (url : String)
  | callLaunchTelegram
  | callReadFolder (path : String)
  | callTakeScreenshot
  | callClickButton (image : String)
  | callFillForm (selector value : String)
  | callOpenApplication (exe : String) (args : Option String)
  | callSendHttp (endpoint rawBody : String) (payload : JsonVal)
  | navigate (session : Nat) (url : String)
  | sessionQuit (session : Nat)
  | sessionCreate (session : Nat)
  | domFind (session : Nat) (selector : String)
  | domFill (session : Nat) (selector value : String)
  | httpPost (endpoint : String) (payload : JsonVal) (timeoutSecs : Nat)
  | spawn (cmdline : List String)
  | startfile (path : String)
  | mkdirs (dir : String)
  | screenshotSave (file : String)
  | mouseClick (image : String)
  | dirList (path : String)

/-- The opaque external world: availability of optional backends, success or
failure of each external call, and the data external calls return.  A `false`
in one of the `*Ok` oracles models the corresponding Python call raising an
exception. -/
structure Env where
  seleniumAvailable : Bool
  pyautoguiAvailable : Bool
  navOk : Nat → String → Bool
  findOk : Nat → String → Bool
  createOk : Bool
  spawnOk : Bool
  httpOk : String → Bool
  pathExists : String → Bool
  dirEntries : String → List String
  jsonParse : String → Option JsonVal
  locateFound : String → Bool
  screenshotOk : Bool
  localAppData : String
  home : String
  now : Nat

/-- Process state: the single global `BROWSER_SESSION` handle.  Sessions are
identified by a counter so that a freshly created driver is distinguishable
from a previously discarded one. -/
structure AState where
  browserSession : Option Nat
  nextSessionId : Nat

/-- How a call to `execute_command` returns: normally, or by raising
`SystemExit` (`sys.exit(0)`). -/
inductive ExecResult where
  | normal
  | sysExit (code : Nat)

/-! ### Handlers (one Lean definition per Python handler) -/
/-- Shared tail of `open_browser`: create a fresh driver with the maximized
options and navigate (source lines 91–95, reached both when no session
exists and after a failed reuse).  A creation failure is caught by the
handler's outer `except Exception`. -/
def openBrowserCreate (env : Env) (st : AState) (url : String)
    (pre : List Event) : AState × List Event :=
  if env.createOk then
    let n := st.nextSessionId
    let st' : AState := ⟨some n, n + 1⟩
    if env.navOk n url then
      (st', pre ++ [.sessionCreate n, .navigate n url,
                    .log "Browser opened successfully."])
    else
      (st', pre ++ [.sessionCreate n, .navigate n url,
                    .log "Failed to open browser: <exception>"])
  else
    (st, pre ++ [.log "Failed to open browser: <exception>"])

/-- Model of `open_browser(url)`. -/
def open_browser (env : Env) (st : AState) (url : String) :
    AState × List Event :=
  let hd := Event.log ("Attempting to open browser at URL: " ++ url)
  if env.seleniumAvailable then
    match st.browserSession with
    | some s =>
      if env.navOk s url then
        (st, [hd, .navigate s url, .log "Reused existing browser session."])
      else
        openBrowserCreate env { st with browserSession := none } url
          [hd, .navigate s url,
           .log "Existing browser session failed: <exception>. Reinitializing.",
           .sessionQuit s]
    | none => openBrowserCreate env st url [hd]
  else
    (st, [hd, .log "Selenium is not available. Ensure selenium and a driver are installed."])

/-- Model of `launch_telegram()`. -/
def launch_telegram (env : Env) : List Event :=
  let p := env.localAppData ++ "/Telegram Desktop/Telegram.exe"
  Event.log "Attempting to launch Telegram Desktop." ::
    (if env.pathExists p then
      [.log ("Launching Telegram from " ++ p), .startfile p]
    else
      [.log "Telegram executable not found in the default location."])

/-- Model of `read_folder(path)`. -/
def read_folder (env : Env) (path : String) : List Event :=
  Event.log ("Reading contents of folder: " ++ path) ::
    (if env.pathExists path then
      Event.dirList path ::
        (env.dirEntries path).map (fun nme => Event.log (" - " ++ nme))
    else
      [.log "Folder does not exist."])

/-- Model of `take_screenshot(output_dir)`. -/
def take_screenshot (env : Env) (outputDir : String) : List Event :=
  Event.log "Capturing screenshot." ::
    (if env.pyautoguiAvailable then
      let file := outputDir ++ "/screenshot_" ++ toString env.now ++ ".png"
      [.mkdirs outputDir, .screenshotSave file] ++
        (if env.screenshotOk then
          [Event.log ("Screenshot saved to " ++ file)]
        else
          [Event.log "Failed to take screenshot: <exception>"])
    else
      [.log "pyautogui is not available. Install it to enable screenshots."])

/-- Model of `click_button(image_path)`. -/
def click_button (env : Env) (image : String) : List Event :=
  Event.log ("Attempting to click button using image: " ++ image) ::
    (if env.pyautoguiAvailable then
      if env.locateFound image then
        [.mouseClick image, .log "Clicked button at position: <location>"]
      else
        [.log "Button image not found on screen."]
    else
      [.log "pyautogui is not available. Install it to enable GUI automation."])

/-- Model of `fill_form_field(selector, value)`. -/
def fill_form_field (env : Env) (st : AState) (selector value : String) :
    List Event :=
  Event.log ("Attempting to fill form field '" ++ selector ++
      "' with value '" ++ value ++ "'") ::
    (if env.seleniumAvailable then
      match st.browserSession with
      | none => [.log "No active browser session. Run 'open browser <url>' first."]
      | some s =>
        if env.findOk s selector then
          [.domFind s selector, .domFill s selector value,
           .log "Form field filled successfully."]
        else
          [.domFind s selector, .log "Failed to fill form field: <exception>"]
    else
      [.log "Selenium WebDriver is not available."])

/-- Model of `send_http_message(endpoint, payload)`. -/
def send_http_message (env : Env) (endpoint : String) (payload : JsonVal) :
    List Event :=
  [Event.log ("Sending HTTP POST request to " ++ endpoint ++ " with payload <payload>"),
   Event.httpPost endpoint payload 10] ++
    (if env.httpOk endpoint then
      [Event.log "Response status: <status>", Event.log "Response body: <body>"]
    else
      [Event.log "Failed to send HTTP request: <exception>"])

/-- Model of `open_application(executable_path, arguments)`. -/
def open_application (env : Env) (exe : String) (args : Option String) :
    List Event :=
  Event.log ("Attempting to open application: " ++ exe) ::
    (if env.pathExists exe then
      let cmdline := exe ::
        (match args with
         | some a => if a = "" then [] else pySplitWS a
         | none => [])
      Event.spawn cmdline ::
        (if env.spawnOk then
          [Event.log "Application launched successfully."]
        else
          [Event.log "Failed to launch application: <exception>"])
    else
      [.log "Executable path does not exist."])

/-! ### The dispatcher -/
/-- Result of one call to `execute_command`: the updated process state, the
trace of observable actions, and whether the call returned or raised
`SystemExit`. -/
structure ExecOut where
  st : AState
  trace : List Event
  res : ExecResult

/-- Model of `execute_command(command)`: normalize, then try each recognized
shape in the source's order. -/
def execute_command (env : Env) (st : AState) (raw : String) : ExecOut :=
  let command := pyNorm raw
  let hd := Event.log ("Processing command: " ++ command)
  if pyStartsWith command "open browser" then
    let url0 := pyStrip (pyDrop command 12)
    let url := if url0 = "" then "https://www.google.com" else url0
    let r := open_browser env st url
    ⟨r.1, hd :: .callOpenBrowser url :: r.2, .normal⟩
  else if pyStartsWith command "launch telegram" then
    ⟨st, hd :: .callLaunchTelegram :: launch_telegram env, .normal⟩
  else if pyStartsWith command "read folder" then
    let f0 := pyStrip (pyDrop command 11)
    let f := if f0 = "" then env.home else f0
    ⟨st, hd :: .callReadFolder f :: read_folder env f, .normal⟩
  else if pyStartsWith command "take screenshot" then
    ⟨st, hd :: .callTakeScreenshot :: take_screenshot env "screenshots", .normal⟩
  else if pyStartsWith command "click button" then
    let img := pyStrip (pyDrop command 12)
    ⟨st, hd :: .callClickButton img :: click_button env img, .normal⟩
  else if pyStartsWith command "fill form" then
    let parts := pySplitDC command
    if parts.length = 3 then
      let selector := pyStrip (parts.getD 1 "")
      let value := pyStrip (parts.getD 2 "")
      ⟨st, hd :: .callFillForm selector value ::
            fill_form_field env st selector value, .normal⟩
    else
      ⟨st, [hd, .log "Invalid form command format. Use 'fill form::CSS_SELECTOR::VALUE'"],
        .normal⟩
  else if pyStartsWith command "open app" then
    let parts := pySplitDC command
    if 2 ≤ parts.length then
      let exe := pyStrip (parts.getD 1 "")
      let args := if parts.length = 3 then some (pyStrip (parts.getD 2 "")) else none
      ⟨st, hd :: .callOpenApplication exe args :: open_application env exe args,
        .normal⟩
    else
      ⟨st, [hd, .log "Invalid app command format. Use 'open app::C:/Path/To/App.exe::optional arguments'"],
        .normal⟩
  else if pyStartsWith command "send http" then
    let parts := pySplitDC2 command
    if parts.length = 3 then
      match env.jsonParse (parts.getD 2 "") with
      | some payload =>
        let endpoint := pyStrip (parts.getD 1 "")
        ⟨st, hd :: .callSendHttp endpoint (parts.getD 2 "") payload ::
              send_http_message env endpoint payload, .normal⟩
      | none =>
        ⟨st, [hd, .log "Invalid HTTP command format. Use 'send http::URL::\x7b\"key\": \"value\"\x7d'"],
          .normal⟩
    else
      ⟨st, [hd, .log "Invalid HTTP command format. Use 'send http::URL::\x7b\"key\": \"value\"\x7d'"],
        .normal⟩
  else if command = "exit" ∨ command = "quit" then
    ⟨st, [hd, .log "Exiting assistant loop."], .sysExit 0⟩
  else
    ⟨st, [hd, .log "Command not recognized."], .normal⟩

/-! ### The main loop -/
/-- One iteration's worth of outside input to `main`'s loop:
a direct text entry (`input()`), a recognized voice phrase (truthy result of
`recognize_voice` when speech recognition is available), a text entry after
voice capture yielded nothing, a `KeyboardInterrupt`, or an exception raised
while obtaining input (caught by the loop's `except Exception`). -/
inductive LoopInput where
  | text (cmd : String)
  | voice (phrase : String)
  | voiceFallback (cmd : String)
  | interrupt
  | inputFailure

/-- Why the loop stopped.  `exitCmd` is the `SystemExit` raised by
`sys.exit(0)` propagating uncaught past the loop; `stopPhrase` and
`interrupted` are the two `break` paths. -/
inductive StopReason where
  | exitCmd
  | stopPhrase
  | interrupted

/-- Outcome of running the loop on a finite input script: final state, the
trace, and the stop reason (`none` when the script ran out with the loop
still live). -/
structure RunOut where
  st : AState
  trace : List Event
  reason : Option StopReason

/-- The code after the `while` loop in `main` (source lines 353–359): quit a
live session, swallowing errors, and emit the final log.  Reached only via
`break`; a propagating `SystemExit` skips it. -/
def cleanup (st : AState) : List Event :=
  (match st.browserSession with
   | some s => [Event.sessionQuit s]
   | none => []) ++ [Event.log "Assistant stopped."]

/-- Model of `main`'s `while True` loop over a finite script of inputs. -/
def loopGo (env : Env) : List LoopInput → AState → RunOut
  | [], st => ⟨st, [], none⟩
  | .interrupt :: _, st =>
    ⟨st, Event.log "Assistant interrupted by user." :: cleanup st, some .interrupted⟩
  | .inputFailure :: rest, st =>
    let r := loopGo env rest st
    ⟨r.st, Event.log "Unexpected error: <exception>" :: r.trace, r.reason⟩
  | .voice p :: rest, st =>
    if pyLower p = "stop listening" then
      ⟨st, Event.log "Voice command loop terminated by user." :: cleanup st,
        some .stopPhrase⟩
    else
      let o := execute_command env st p
      match o.res with
      | .sysExit _ => ⟨o.st, o.trace, some .exitCmd⟩
      | .normal =>
        let r := loopGo env rest o.st
        ⟨r.st, o.trace ++ r.trace, r.reason⟩
  | .text cmd :: rest, st =>
    let o := execute_command env st cmd
    match o.res with
    | .sysExit _ => ⟨o.st, o.trace, some .exitCmd⟩
    | .normal =>
      let r := loopGo env rest o.st
      ⟨r.st, o.trace ++ r.trace, r.reason⟩
  | .voiceFallback cmd :: rest, st =>
    let o := execute_command env st cmd
    match o.res with
    | .sysExit _ => ⟨o.st, o.trace, some .exitCmd⟩
    | .normal =>
      let r := loopGo env rest o.st
      ⟨r.st, o.trace ++ r.trace, r.reason⟩

/-- Model of `main()`: startup logs, then the loop from the initial state
(`BROWSER_SESSION = None`). -/
def mainRun (env : Env) (srAvailable : Bool) (inputs : List LoopInput) : RunOut :=
  let r := loopGo env inputs ⟨none, 0⟩
  ⟨r.st,
   Event.log "Starting Windows Automation Assistant." ::
     Event.log (if srAvailable then
        "Voice recognition available. Say 'stop listening' to end voice mode."
      else
        "Voice recognition not available; defaulting to text commands.") ::
     r.trace,
   r.reason⟩

/-! ### Concrete environments for witnesses -/
/-- A concrete environment: all backends available, external calls succeed,
no filesystem path exists, JSON never parses. -/
def defEnv : Env where
  seleniumAvailable := true
  pyautoguiAvailable := true
  navOk := fun _ _ => true
  findOk := fun _ _ => true
  createOk := true
  spawnOk := true
  httpOk := fun _ => true
  pathExists := fun _ => false
  dirEntries := fun _ => []
  jsonParse := fun _ => none
  locateFound := fun _ => false
  screenshotOk := true
  localAppData := "c:/users/public/appdata/local"
  home := "c:/users/public"
  now := 0

/-- The initial process state. -/
def st0 : AState := ⟨none, 0⟩

/-! ### Event classifiers -/
/-- Is this event a console log line? -/
def Event.isLog : Event → Bool
  | .log _ => true
  | _ => false

/-- Is this event a `driver.quit()` attempt? -/
def Event.isSessionQuit : Event → Bool
  | .sessionQuit _ => true
  | _ => false

/-- Is this event a `webdriver.Chrome(...)` creation? -/
def Event.isSessionCreate : Event → Bool
  | .sessionCreate _ => true
  | _ => false

/-- Is this event an HTTP POST? -/
def Event.isHttpPost : Event → Bool
  | .httpPost _ _ _ => true
  | _ => false

/-- Is this event a `subprocess.Popen` spawn? -/
def Event.isSpawn : Event → Bool
  | .spawn _ => true
  | _ => false

/-- Is this event a DOM interaction (find / clear+send_keys)? -/
def Event.isDom : Event → Bool
  | .domFind _ _ => true
  | .domFill _ _ _ => true
  | _ => false

/-- Is this event the dispatcher invoking a handler? -/
def Event.isHandlerCall : Event → Bool
  | .callOpenBrowser _ => true
  | .callLaunchTelegram => true
  | .callReadFolder _ => true
  | .callTakeScreenshot => true
  | .callClickButton _ => true
  | .callFillForm _ _ => true
  | .callOpenApplication _ _ => true
  | .callSendHttp _ _ _ => true
  | _ => false

/-- Is this event the dispatcher invoking `open_application`? -/
def Event.isCallOpenApplication : Event → Bool
  | .callOpenApplication _ _ => true
  | _ => false

/-- Is this event the dispatcher invoking `fill_form_field`? -/
def Event.isCallFillForm : Event → Bool
  | .callFillForm _ _ => true
  | _ => false

/-- Is this event the dispatcher invoking `take_screenshot`? -/
def Event.isCallTakeScreenshot : Event → Bool
  | .callTakeScreenshot => true
  | _ => false

/-- The string arguments the dispatcher hands to a handler in a `call*`
event (for `callSendHttp`, the endpoint and the raw body text that was
given to `json.loads`). -/
def Event.callArgs : Event → List String
  | .callOpenBrowser u => [u]
  | .callReadFolder p => [p]
  | .callClickButton i => [i]
  | .callFillForm s v => [s, v]
  | .callOpenApplication e a => e :: a.toList
  | .callSendHttp ep rawBody _ => [ep, rawBody]
  | _ => []

/-- Environment in which every navigation call raises. -/
def navFailEnv : Env := { defEnv with navOk := fun _ _ => false }

/-- The normalized command is the exit command. -/
def isExitCmd (c : String) : Prop := c = "exit" ∨ c = "quit"

instance (c : String) : Decidable (isExitCmd c) := by
  unfold isExitCmd; infer_instance

/-- Environment whose JSON parser accepts exactly the body used in the C5
witness. -/
def jsonEnv : Env :=
  { defEnv with jsonParse := fun s =>
      if s = "\x7b\"a\":1\x7d" then some (.obj [("a", .num 1)]) else none }

/-- Environment in which every filesystem path exists. -/
def allPathsEnv : Env := { defEnv with pathExists := fun _ => true }

/-- Environment whose home directory (the `read folder` default,
`str(Path.home())` in the source) contains uppercase characters, as it does
on a typical Windows account. -/
def upperHomeEnv : Env := { defEnv with home := "C:\\Users\\Public" }

/-- The disjunction of the dispatcher's guard conditions, in source order. -/
def recognizedCmd (c : String) : Bool :=
  pyStartsWith c "open browser" || pyStartsWith c "launch telegram" ||
  pyStartsWith c "read folder" || pyStartsWith c "take screenshot" ||
  pyStartsWith c "click button" || pyStartsWith c "fill form" ||
  pyStartsWith c "open app" || pyStartsWith c "send http" ||
  (c = "exit") || (c = "quit")

/-- The run examined by the C1 divergence theorem: open a browser (a session
is created), then `exit`, with one more command still queued. -/
def c1run : RunOut :=
  mainRun defEnv false
    [.text "open browser http://a", .text "exit", .text "take screenshot"]

/-! ### Theorems -/

theorem lcChar_not_upper (c : Char) : isUpperB (lcChar c) = false := by
  unfold lcChar
  split
  · rename_i h
    obtain ⟨h1, h2⟩ := h
    generalize hm : c.toNat = m at h1 h2 ⊢
    interval_cases m <;> decide
  · rename_i h
    simp [isUpperB]
    omega

theorem upperFree_pyLower (s : String) : upperFree (pyLower s) = true := by
  simp [upperFree, pyLower, List.all_map]
  intro c _
  simpa using lcChar_not_upper c

theorem stripL_subset (cs : List Char) : stripL cs ⊆ cs := by
  unfold stripL
  intro c hc
  rw [List.mem_reverse] at hc
  have h1 := (List.dropWhile_sublist (l := (cs.dropWhile isWS).reverse) isWS).subset hc
  rw [List.mem_reverse] at h1
  exact (List.dropWhile_sublist isWS).subset h1

theorem upperFree_of_subset {s t : String} (h : s.data ⊆ t.data)
    (ht : upperFree t = true) : upperFree s = true := by
  simp only [upperFree, List.all_eq_true] at *
  exact fun c hc => ht c (h hc)

theorem upperFree_pyStrip {s : String} (h : upperFree s = true) :
    upperFree (pyStrip s) = true :=
  upperFree_of_subset (stripL_subset s.data) h

theorem upperFree_pyDrop {s : String} (n : Nat) (h : upperFree s = true) :
    upperFree (pyDrop s n) = true :=
  upperFree_of_subset (List.drop_subset n s.data) h

theorem upperFree_pyNorm (s : String) : upperFree (pyNorm s) = true :=
  upperFree_pyLower _

theorem splitDC_subset : ∀ cs : List Char, ∀ p ∈ splitDC cs, p ⊆ cs := by
  intro cs
  induction cs using splitDC.induct with
  | case1 => simp [splitDC]
  | case2 c => simp [splitDC]
  | case3 c1 c2 rest h ih =>
    simp only [splitDC, if_pos h]
    rintro p hp
    rcases List.mem_cons.mp hp with rfl | hp
    · simp
    · exact fun c hc => List.mem_cons_of_mem _ (List.mem_cons_of_mem _ (ih p hp hc))
  | case4 c1 c2 rest h p ps heq ih =>
    simp only [splitDC, if_neg h, heq]
    rintro q hq
    rcases List.mem_cons.mp hq with rfl | hq
    · intro c hc
      rcases List.mem_cons.mp hc with rfl | hc
      · exact List.mem_cons_self _ _
      · exact List.mem_cons_of_mem _
          (ih p (by rw [heq]; exact List.mem_cons_self _ _) hc)
    · exact fun c hc => List.mem_cons_of_mem _
        (ih q (by rw [heq]; exact List.mem_cons_of_mem _ hq) hc)
  | case5 c1 c2 rest h heq ih =>
    simp only [splitDC, if_neg h, heq]
    rintro q hq
    rcases List.mem_cons.mp hq with rfl | hq
    · intro c hc
      rcases List.mem_cons.mp hc with rfl | hc
      · exact List.mem_cons_self _ _
      · simp at hc
    · simp at hq

theorem splitDCmax_subset : ∀ (n : Nat) (cs : List Char), ∀ p ∈ splitDCmax n cs, p ⊆ cs := by
  intro n cs
  induction n, cs using splitDCmax.induct with
  | case1 x => simp [splitDCmax]
  | case2 c rest => simp [splitDCmax]
  | case3 n c => simp [splitDCmax]
  | case4 n c1 c2 rest h ih =>
    simp only [splitDCmax, if_pos h]
    rintro p hp
    rcases List.mem_cons.mp hp with rfl | hp
    · simp
    · exact fun c hc => List.mem_cons_of_mem _ (List.mem_cons_of_mem _ (ih p hp hc))
  | case5 n c1 c2 rest h p ps heq ih =>
    simp only [splitDCmax, if_neg h, heq]
    rintro q hq
    rcases List.mem_cons.mp hq with rfl | hq
    · intro c hc
      rcases List.mem_cons.mp hc with rfl | hc
      · exact List.mem_cons_self _ _
      · exact List.mem_cons_of_mem _
          (ih p (by rw [heq]; exact List.mem_cons_self _ _) hc)
    · exact fun c hc => List.mem_cons_of_mem _
        (ih q (by rw [heq]; exact List.mem_cons_of_mem _ hq) hc)
  | case6 n c1 c2 rest h heq ih =>
    simp only [splitDCmax, if_neg h, heq]
    rintro q hq
    rcases List.mem_cons.mp hq with rfl | hq
    · intro c hc
      rcases List.mem_cons.mp hc with rfl | hc
      · exact List.mem_cons_self _ _
      · simp at hc
    · simp at hq

theorem upperFree_pySplitDC {s : String} (h : upperFree s = true) :
    ∀ p ∈ pySplitDC s, upperFree p = true := by
  intro p hp
  simp only [pySplitDC, List.mem_map] at hp
  obtain ⟨cs, hcs, rfl⟩ := hp
  exact upperFree_of_subset (splitDC_subset s.data cs hcs) h

theorem upperFree_pySplitDC2 {s : String} (h : upperFree s = true) :
    ∀ p ∈ pySplitDC2 s, upperFree p = true := by
  intro p hp
  simp only [pySplitDC2, List.mem_map] at hp
  obtain ⟨cs, hcs, rfl⟩ := hp
  exact upperFree_of_subset (splitDCmax_subset 2 s.data cs hcs) h

theorem upperFree_getD {l : List String} (i : Nat)
    (h : ∀ p ∈ l, upperFree p = true) : upperFree (l.getD i "") = true := by
  by_cases hi : i < l.length
  · rw [List.getD_eq_getElem _ _ hi]
    exact h _ (List.getElem_mem hi)
  · rw [List.getD_eq_default _ _ (Nat.le_of_not_lt hi)]
    decide

/-- Two prefixes of the same list are comparable. -/
theorem isPrefixOf_comparable {l1 l2 s : List Char}
    (h1 : l1.isPrefixOf s = true) (h2 : l2.isPrefixOf s = true) :
    l1.isPrefixOf l2 = true ∨ l2.isPrefixOf l1 = true := by
  rw [List.isPrefixOf_iff_prefix] at h1 h2 ⊢
  rw [List.isPrefixOf_iff_prefix]
  rcases h1 with ⟨t1, rfl⟩
  rcases h2 with ⟨t2, he⟩
  rcases Nat.le_total l1.length l2.length with hl | hl
  · left
    exact List.prefix_of_prefix_length_le ⟨t1, rfl⟩ ⟨t2, he⟩ hl
  · right
    exact List.prefix_of_prefix_length_le ⟨t2, he⟩ ⟨t1, rfl⟩ hl

/-- If the normalized command starts with `p`, and the literals `p` and `q`
are incompatible (neither a prefix of the other), the command does not start
with `q`.  Powers the branch analysis of the dispatcher's if-chain. -/
theorem pyStartsWith_excl {s : String} (p q : String)
    (h : pyStartsWith s p = true)
    (hpq : p.data.isPrefixOf q.data = false)
    (hqp : q.data.isPrefixOf p.data = false) :
    pyStartsWith s q = false := by
  unfold pyStartsWith at *
  by_contra hq
  rw [Bool.not_eq_false] at hq
  rcases isPrefixOf_comparable h hq with hc | hc
  · rw [hpq] at hc; exact Bool.false_ne_true hc
  · rw [hqp] at hc; exact Bool.false_ne_true hc

theorem callArgs_eq_nil_of_not_call {e : Event} (h : e.isHandlerCall = false) :
    e.callArgs = [] := by
  cases e <;> first | rfl | simp [Event.isHandlerCall] at h

/-! ### Handler traces contain no handler-call markers -/
theorem openBrowserCreate_no_call (env : Env) (st : AState) (url : String)
    (pre : List Event) (hpre : ∀ e ∈ pre, e.isHandlerCall = false) :
    ∀ e ∈ (openBrowserCreate env st url pre).2, e.isHandlerCall = false := by
  intro e he
  unfold openBrowserCreate at he
  split at he
  · dsimp only at he
    split at he <;> rcases List.mem_append.mp he with h | h <;>
      first
        | exact hpre e h
        | (simp only [List.mem_cons, List.mem_singleton, List.not_mem_nil, or_false] at h
           rcases h with rfl | rfl | rfl <;> rfl)
  · rcases List.mem_append.mp he with h | h
    · exact hpre e h
    · simp only [List.mem_singleton] at h
      subst h; rfl

theorem open_browser_no_call (env : Env) (st : AState) (url : String) :
    ∀ e ∈ (open_browser env st url).2, e.isHandlerCall = false := by
  intro e he
  unfold open_browser at he
  split at he
  · split at he
    · split at he
      · simp only [List.mem_cons, List.mem_singleton, List.not_mem_nil, or_false] at he
        rcases he with rfl | rfl | rfl <;> rfl
      · refine openBrowserCreate_no_call _ _ _ _ ?_ e he
        intro e' he'
        simp only [List.mem_cons, List.mem_singleton, List.not_mem_nil, or_false] at he'
        rcases he' with rfl | rfl | rfl | rfl <;> rfl
    · refine openBrowserCreate_no_call _ _ _ _ ?_ e he
      intro e' he'
      simp only [List.mem_singleton] at he'
      subst he'; rfl
  · simp only [List.mem_cons, List.mem_singleton, List.not_mem_nil, or_false] at he
    rcases he with rfl | rfl <;> rfl

theorem launch_telegram_no_call (env : Env) :
    ∀ e ∈ launch_telegram env, e.isHandlerCall = false := by
  intro e he
  unfold launch_telegram at he
  rcases List.mem_cons.mp he with rfl | he
  · rfl
  · split at he <;>
      simp only [List.mem_cons, List.mem_singleton, List.not_mem_nil, or_false] at he
    · rcases he with rfl | rfl <;> rfl
    · subst he; rfl

theorem read_folder_no_call (env : Env) (path : String) :
    ∀ e ∈ read_folder env path, e.isHandlerCall = false := by
  intro e he
  unfold read_folder at he
  rcases List.mem_cons.mp he with rfl | he
  · rfl
  · split at he
    · rcases List.mem_cons.mp he with rfl | he
      · rfl
      · obtain ⟨n, -, rfl⟩ := List.mem_map.mp he
        rfl
    · simp only [List.mem_singleton] at he
      subst he; rfl

theorem take_screenshot_no_call (env : Env) (dir : String) :
    ∀ e ∈ take_screenshot env dir, e.isHandlerCall = false := by
  intro e he
  unfold take_screenshot at he
  rcases List.mem_cons.mp he with rfl | he
  · rfl
  · split at he
    · rcases List.mem_append.mp he with h | h
      · simp only [List.mem_cons, List.mem_singleton, List.not_mem_nil, or_false] at h
        rcases h with rfl | rfl <;> rfl
      · split at h <;> simp only [List.mem_singleton] at h <;> (subst h; rfl)
    · simp only [List.mem_singleton] at he
      subst he; rfl

theorem click_button_no_call (env : Env) (image : String) :
    ∀ e ∈ click_button env image, e.isHandlerCall = false := by
  intro e he
  unfold click_button at he
  rcases List.mem_cons.mp he with rfl | he
  · rfl
  · split at he
    · split at he <;>
        simp only [List.mem_cons, List.mem_singleton, List.not_mem_nil, or_false] at he
      · rcases he with rfl | rfl <;> rfl
      · subst he; rfl
    · simp only [List.mem_singleton] at he
      subst he; rfl

theorem fill_form_field_no_call (env : Env) (st : AState) (sel val : String) :
    ∀ e ∈ fill_form_field env st sel val, e.isHandlerCall = false := by
  intro e he
  unfold fill_form_field at he
  rcases List.mem_cons.mp he with rfl | he
  · rfl
  · split at he
    · split at he
      · simp only [List.mem_singleton] at he
        subst he; rfl
      · split at he <;>
          simp only [List.mem_cons, List.mem_singleton, List.not_mem_nil, or_false] at he
        · rcases he with rfl | rfl | rfl <;> rfl
        · rcases he with rfl | rfl <;> rfl
    · simp only [List.mem_singleton] at he
      subst he; rfl

theorem send_http_message_no_call (env : Env) (ep : String) (payload : JsonVal) :
    ∀ e ∈ send_http_message env ep payload, e.isHandlerCall = false := by
  intro e he
  unfold send_http_message at he
  rcases List.mem_append.mp he with h | h
  · simp only [List.mem_cons, List.mem_singleton, List.not_mem_nil, or_false] at h
    rcases h with rfl | rfl <;> rfl
  · split at h <;>
      simp only [List.mem_cons, List.mem_singleton, List.not_mem_nil, or_false] at h
    · rcases h with rfl | rfl <;> rfl
    · subst h; rfl

theorem open_application_no_call (env : Env) (exe : String) (args : Option String) :
    ∀ e ∈ open_application env exe args, e.isHandlerCall = false := by
  intro e he
  unfold open_application at he
  rcases List.mem_cons.mp he with rfl | he
  · rfl
  · split at he
    · rcases List.mem_cons.mp he with rfl | he
      · rfl
      · split at he <;> simp only [List.mem_singleton] at he <;> (subst he; rfl)
    · simp only [List.mem_singleton] at he
      subst he; rfl

/-- C1 (divergence): with a live browser session, the command `exit`
terminates the run via a propagating `SystemExit` and no further command is
processed — but the live session is never closed, because `sys.exit(0)`
raises `SystemExit`, which neither `except KeyboardInterrupt` nor
`except Exception` catches, so the session-cleanup block after the loop
(source lines 353–357) is skipped. -/
theorem c1_exit_skips_session_close :
    c1run.reason = some .exitCmd ∧
    c1run.st.browserSession = some 0 ∧
    c1run.trace.filter Event.isSessionCreate = [.sessionCreate 0] ∧
    c1run.trace.filter Event.isSessionQuit = [] ∧
    c1run.trace.filter Event.isCallTakeScreenshot = [] :=
  ⟨rfl, rfl, rfl, rfl, rfl⟩

/-- C2 counterexample: `open app::a::b::c` splits into 4 fields, yet the
dispatcher invokes the application-launch handler (with the extra fields
silently dropped) instead of reporting a format error — the guard is
`len(parts) >= 2`, not `len(parts) in (2, 3)`. -/
theorem c2_four_fields_invokes_handler :
    (pySplitDC (pyNorm "open app::a::b::c")).length = 4 ∧
    (execute_command defEnv st0 "open app::a::b::c").trace =
      [.log "Processing command: open app::a::b::c",
       .callOpenApplication "a" none,
       .log "Attempting to open application: a",
       .log "Executable path does not exist."] :=
  ⟨rfl, rfl⟩

theorem filter_call_eq_nil {tr : List Event} (p : Event → Bool)
    (hp : ∀ e, p e = true → e.isHandlerCall = true)
    (h : ∀ e ∈ tr, e.isHandlerCall = false) : tr.filter p = [] := by
  rw [List.filter_eq_nil_iff]
  intro a ha hpa
  have := hp a hpa
  rw [h a ha] at this
  exact Bool.false_ne_true this

/-- C2 amended: with at least 2 `::`-fields the handler is invoked
(executable = second field; args = third field only when there are exactly
3 fields, extra fields beyond the third being dropped); only a line with no
`::` at all yields the format error and no handler call. -/
theorem c2_open_app_field_counts (env : Env) (st : AState) (raw : String)
    (h : pyStartsWith (pyNorm raw) "open app" = true) :
    (2 ≤ (pySplitDC (pyNorm raw)).length →
      (execute_command env st raw).trace.filter Event.isCallOpenApplication =
        [.callOpenApplication (pyStrip ((pySplitDC (pyNorm raw)).getD 1 ""))
          (if (pySplitDC (pyNorm raw)).length = 3
           then some (pyStrip ((pySplitDC (pyNorm raw)).getD 2 "")) else none)]) ∧
    ((pySplitDC (pyNorm raw)).length < 2 →
      (execute_command env st raw).trace.filter Event.isCallOpenApplication = [] ∧
      Event.log "Invalid app command format. Use 'open app::C:/Path/To/App.exe::optional arguments'"
        ∈ (execute_command env st raw).trace) := by
  have h1 : pyStartsWith (pyNorm raw) "open browser" = false :=
    pyStartsWith_excl _ _ h (by decide) (by decide)
  have h2 : pyStartsWith (pyNorm raw) "launch telegram" = false :=
    pyStartsWith_excl _ _ h (by decide) (by decide)
  have h3 : pyStartsWith (pyNorm raw) "read folder" = false :=
    pyStartsWith_excl _ _ h (by decide) (by decide)
  have h4 : pyStartsWith (pyNorm raw) "take screenshot" = false :=
    pyStartsWith_excl _ _ h (by decide) (by decide)
  have h5 : pyStartsWith (pyNorm raw) "click button" = false :=
    pyStartsWith_excl _ _ h (by decide) (by decide)
  have h6 : pyStartsWith (pyNorm raw) "fill form" = false :=
    pyStartsWith_excl _ _ h (by decide) (by decide)
  constructor
  · intro hlen
    simp [execute_command, h1, h2, h3, h4, h5, h6, h, hlen,
      List.filter_cons, Event.isCallOpenApplication]
    intro a ha
    have h' := open_application_no_call _ _ _ a ha
    cases a <;> simp_all [Event.isHandlerCall]
  · intro hlen
    have hlen' : ¬ 2 ≤ (pySplitDC (pyNorm raw)).length := Nat.not_le_of_lt hlen
    constructor
    · simp [execute_command, h1, h2, h3, h4, h5, h6, h, hlen',
        List.filter_cons, Event.isCallOpenApplication]
    · simp [execute_command, h1, h2, h3, h4, h5, h6, h, hlen']

/-- Witness for `c2_open_app_field_counts` at `open app::a::b` (3 fields)
and `open app` (1 field). -/
theorem c2_open_app_field_counts_witness :
    ((execute_command defEnv st0 "open app::a::b").trace.filter
        Event.isCallOpenApplication = [.callOpenApplication "a" (some "b")]) ∧
    ((execute_command defEnv st0 "open app").trace.filter
        Event.isCallOpenApplication = [] ∧
      Event.log "Invalid app command format. Use 'open app::C:/Path/To/App.exe::optional arguments'"
        ∈ (execute_command defEnv st0 "open app").trace) := by
  constructor
  · have := (c2_open_app_field_counts defEnv st0 "open app::a::b" (by decide)).1 (by decide)
    simpa using this
  · exact (c2_open_app_field_counts defEnv st0 "open app" (by decide)).2 (by decide)

/-- `execute_command` raises `SystemExit` exactly on `exit`/`quit`; every
other branch, recognized or not, returns normally. -/
theorem exec_res_eq (env : Env) (st : AState) (raw : String) :
    (execute_command env st raw).res =
      if isExitCmd (pyNorm raw) then ExecResult.sysExit 0 else .normal := by
  by_cases hx : isExitCmd (pyNorm raw)
  · rw [if_pos hx]
    rcases hx with hc | hc <;>
      simp [execute_command, hc,
        show pyStartsWith "exit" "open browser" = false from by decide,
        show pyStartsWith "exit" "launch telegram" = false from by decide,
        show pyStartsWith "exit" "read folder" = false from by decide,
        show pyStartsWith "exit" "take screenshot" = false from by decide,
        show pyStartsWith "exit" "click button" = false from by decide,
        show pyStartsWith "exit" "fill form" = false from by decide,
        show pyStartsWith "exit" "open app" = false from by decide,
        show pyStartsWith "exit" "send http" = false from by decide,
        show pyStartsWith "quit" "open browser" = false from by decide,
        show pyStartsWith "quit" "launch telegram" = false from by decide,
        show pyStartsWith "quit" "read folder" = false from by decide,
        show pyStartsWith "quit" "take screenshot" = false from by decide,
        show pyStartsWith "quit" "click button" = false from by decide,
        show pyStartsWith "quit" "fill form" = false from by decide,
        show pyStartsWith "quit" "open app" = false from by decide,
        show pyStartsWith "quit" "send http" = false from by decide]
  · rw [if_neg hx]
    have hx1 : ¬ pyNorm raw = "exit" := fun h => hx (Or.inl h)
    have hx2 : ¬ pyNorm raw = "quit" := fun h => hx (Or.inr h)
    rcases hj : env.jsonParse ((pySplitDC2 (pyNorm raw))[2]?.getD "") with _ | payload <;>
      simp [execute_command, hx1, hx2, hj, apply_ite ExecOut.res]

/-- C3: the dispatcher returns normally for every command except the
exit/quit commands, where it raises `SystemExit`; consequently processing
any non-exit text command leaves the main loop running into the rest of its
input script — a handler failure (any environment oracle) never terminates
the loop. -/
theorem c3_no_handler_failure_escapes (env : Env) (st : AState) (raw : String)
    (rest : List LoopInput) :
    ((execute_command env st raw).res = .sysExit 0 ↔ isExitCmd (pyNorm raw)) ∧
    (¬ isExitCmd (pyNorm raw) →
      (loopGo env (.text raw :: rest) st).reason =
        (loopGo env rest (execute_command env st raw).st).reason) := by
  constructor
  · rw [exec_res_eq]
    by_cases hx : isExitCmd (pyNorm raw) <;> simp [hx]
  · intro h
    have hres : (execute_command env st raw).res = .normal := by
      rw [exec_res_eq, if_neg h]
    simp [loopGo, hres]

/-- Witness for `c3_no_handler_failure_escapes` at a non-exit command. -/
theorem c3_no_handler_failure_escapes_witness :
    ((execute_command defEnv st0 "take a nap").res = .sysExit 0 ↔
      isExitCmd (pyNorm "take a nap")) ∧
    (loopGo defEnv [.text "take a nap"] st0).reason =
      (loopGo defEnv [] (execute_command defEnv st0 "take a nap").st).reason :=
  ⟨(c3_no_handler_failure_escapes defEnv st0 "take a nap" []).1,
   (c3_no_handler_failure_escapes defEnv st0 "take a nap" []).2 (by decide)⟩

/-- C4: with a live session (under the model invariant that issued session
ids lie below the id counter), `open_browser` attempts navigation on the
existing session first; if that navigation raises, the very next external
action is the close attempt on the old session (before any new driver is
created; the close error is swallowed by the source's bare
`except Exception: pass`), and afterwards the handle is never the dead
session: it is the freshly created one, or `none` if creation failed.
Failures never propagate: the handler has no raising path (see the `res`
component of C3). -/
theorem c4_session_reuse_then_recreate (env : Env) (st : AState) (url : String)
    (s : Nat) (hs : st.browserSession = some s)
    (hsel : env.seleniumAvailable = true) (hfresh : s < st.nextSessionId) :
    (((open_browser env st url).2.filter (fun e => !e.isLog)).head? =
        some (.navigate s url)) ∧
    (env.navOk s url = false →
      (((open_browser env st url).2.filter (fun e => !e.isLog))[1]? =
          some (.sessionQuit s) ∧
        (open_browser env st url).1.browserSession ≠ some s ∧
        ((open_browser env st url).1.browserSession = none ∨
          (open_browser env st url).1.browserSession = some st.nextSessionId) ∧
        (∀ n, Event.sessionCreate n ∈ (open_browser env st url).2 →
          n = st.nextSessionId))) := by
  refine ⟨?_, ?_⟩ <;>
    rcases hnav : env.navOk s url with _ | _ <;>
      rcases hc : env.createOk with _ | _ <;>
        rcases hn2 : env.navOk st.nextSessionId url with _ | _ <;>
          simp [open_browser, openBrowserCreate, hs, hsel, hnav, hc, hn2,
            Event.isLog] <;>
          omega

/-- Witness for `c4_session_reuse_then_recreate`: session 5 live, every
navigation fails. -/
theorem c4_session_reuse_then_recreate_witness :
    (((open_browser navFailEnv ⟨some 5, 6⟩ "http://x").2.filter
        (fun e => !e.isLog)).head? = some (.navigate 5 "http://x")) ∧
    ((((open_browser navFailEnv ⟨some 5, 6⟩ "http://x").2.filter
        (fun e => !e.isLog))[1]? = some (.sessionQuit 5)) ∧
      (open_browser navFailEnv ⟨some 5, 6⟩ "http://x").1.browserSession ≠ some 5 ∧
      ((open_browser navFailEnv ⟨some 5, 6⟩ "http://x").1.browserSession = none ∨
        (open_browser navFailEnv ⟨some 5, 6⟩ "http://x").1.browserSession = some 6) ∧
      (∀ n, Event.sessionCreate n ∈ (open_browser navFailEnv ⟨some 5, 6⟩ "http://x").2 →
        n = 6)) :=
  ⟨(c4_session_reuse_then_recreate navFailEnv ⟨some 5, 6⟩ "http://x" 5 rfl rfl
      (by decide)).1,
   (c4_session_reuse_then_recreate navFailEnv ⟨some 5, 6⟩ "http://x" 5 rfl rfl
      (by decide)).2 rfl⟩

/-- C5: for a `send http` command, the line is split on `::` with at most
two splits; unless that yields 3 fields whose body field parses as JSON, a
format error is logged and no POST is issued; if it parses, exactly one
POST is issued to the stripped endpoint with that payload and the fixed
10-second timeout; the dispatcher always returns normally on this branch
(transport errors are caught inside the handler). -/
theorem c5_send_http_post_discipline (env : Env) (st : AState) (raw : String)
    (h : pyStartsWith (pyNorm raw) "send http" = true) :
    (¬ ((pySplitDC2 (pyNorm raw)).length = 3 ∧
        (env.jsonParse ((pySplitDC2 (pyNorm raw))[2]?.getD "")).isSome) →
      (execute_command env st raw).trace.filter Event.isHttpPost = [] ∧
      Event.log "Invalid HTTP command format. Use 'send http::URL::\x7b\"key\": \"value\"\x7d'"
        ∈ (execute_command env st raw).trace) ∧
    (∀ payload, (pySplitDC2 (pyNorm raw)).length = 3 →
      env.jsonParse ((pySplitDC2 (pyNorm raw))[2]?.getD "") = some payload →
      (execute_command env st raw).trace.filter Event.isHttpPost =
        [.httpPost (pyStrip ((pySplitDC2 (pyNorm raw))[1]?.getD "")) payload 10]) ∧
    (execute_command env st raw).res = .normal := by
  have h1 : pyStartsWith (pyNorm raw) "open browser" = false :=
    pyStartsWith_excl _ _ h (by decide) (by decide)
  have h2 : pyStartsWith (pyNorm raw) "launch telegram" = false :=
    pyStartsWith_excl _ _ h (by decide) (by decide)
  have h3 : pyStartsWith (pyNorm raw) "read folder" = false :=
    pyStartsWith_excl _ _ h (by decide) (by decide)
  have h4 : pyStartsWith (pyNorm raw) "take screenshot" = false :=
    pyStartsWith_excl _ _ h (by decide) (by decide)
  have h5 : pyStartsWith (pyNorm raw) "click button" = false :=
    pyStartsWith_excl _ _ h (by decide) (by decide)
  have h6 : pyStartsWith (pyNorm raw) "fill form" = false :=
    pyStartsWith_excl _ _ h (by decide) (by decide)
  have h7 : pyStartsWith (pyNorm raw) "open app" = false :=
    pyStartsWith_excl _ _ h (by decide) (by decide)
  refine ⟨?_, ?_, ?_⟩
  · intro hn
    by_cases hlen : (pySplitDC2 (pyNorm raw)).length = 3
    · rcases hj : env.jsonParse ((pySplitDC2 (pyNorm raw))[2]?.getD "") with _ | payload
      · have hb : 2 < (pySplitDC2 (pyNorm raw)).length := by omega
        rw [List.getElem?_eq_getElem hb, Option.getD_some] at hj
        simp [execute_command, h1, h2, h3, h4, h5, h6, h7, h, hlen, hj,
          List.filter_cons, Event.isHttpPost]
      · exact absurd ⟨hlen, by rw [hj]; rfl⟩ hn
    · simp [execute_command, h1, h2, h3, h4, h5, h6, h7, h, hlen,
        List.filter_cons, Event.isHttpPost]
  · intro payload hlen hj
    have hb : 2 < (pySplitDC2 (pyNorm raw)).length := by omega
    rw [List.getElem?_eq_getElem hb, Option.getD_some] at hj
    simp [execute_command, h1, h2, h3, h4, h5, h6, h7, h, hlen, hj,
      send_http_message, List.filter_cons, List.filter_append,
      Event.isHttpPost, apply_ite (List.filter Event.isHttpPost)]
  · have hx : ¬ isExitCmd (pyNorm raw) := by
      rintro (he | he) <;> rw [he] at h <;> exact absurd h (by decide)
    rw [exec_res_eq, if_neg hx]

/-- Witness for `c5_send_http_post_discipline`: a parsing body issues one
POST with a 10-second timeout; a malformed body issues none. -/
theorem c5_send_http_post_discipline_witness :
    ((execute_command jsonEnv st0 "send http::url::\x7b\"a\":1\x7d").trace.filter
        Event.isHttpPost = [.httpPost "url" (.obj [("a", .num 1)]) 10]) ∧
    ((execute_command jsonEnv st0 "send http::url::\x7bbad").trace.filter
        Event.isHttpPost = [] ∧
      Event.log "Invalid HTTP command format. Use 'send http::URL::\x7b\"key\": \"value\"\x7d'"
        ∈ (execute_command jsonEnv st0 "send http::url::\x7bbad").trace) := by
  constructor
  · exact (c5_send_http_post_discipline jsonEnv st0 _ (by decide)).2.1
      (.obj [("a", .num 1)]) (by decide) rfl
  · exact (c5_send_http_post_discipline jsonEnv st0 _ (by decide)).1
      (by intro hc; exact absurd hc.2 (by decide))

/-- C6: a `fill form` command whose `::`-split does not have exactly 3
fields produces exactly the format-error log — the state is unchanged and
in particular no DOM interaction and no handler call occurs. -/
theorem c6_fill_form_arity (env : Env) (st : AState) (raw : String)
    (h : pyStartsWith (pyNorm raw) "fill form" = true)
    (hlen : (pySplitDC (pyNorm raw)).length ≠ 3) :
    (execute_command env st raw).trace =
      [.log ("Processing command: " ++ pyNorm raw),
       .log "Invalid form command format. Use 'fill form::CSS_SELECTOR::VALUE'"] ∧
    (execute_command env st raw).st = st := by
  have h1 : pyStartsWith (pyNorm raw) "open browser" = false :=
    pyStartsWith_excl _ _ h (by decide) (by decide)
  have h2 : pyStartsWith (pyNorm raw) "launch telegram" = false :=
    pyStartsWith_excl _ _ h (by decide) (by decide)
  have h3 : pyStartsWith (pyNorm raw) "read folder" = false :=
    pyStartsWith_excl _ _ h (by decide) (by decide)
  have h4 : pyStartsWith (pyNorm raw) "take screenshot" = false :=
    pyStartsWith_excl _ _ h (by decide) (by decide)
  have h5 : pyStartsWith (pyNorm raw) "click button" = false :=
    pyStartsWith_excl _ _ h (by decide) (by decide)
  constructor <;> simp [execute_command, h1, h2, h3, h4, h5, h, hlen]

/-- Witness for `c6_fill_form_arity` at a 2-field and a 4-field line. -/
theorem c6_fill_form_arity_witness :
    ((execute_command defEnv st0 "fill form::a").trace =
      [.log "Processing command: fill form::a",
       .log "Invalid form command format. Use 'fill form::CSS_SELECTOR::VALUE'"]) ∧
    ((execute_command defEnv st0 "fill form::a::b::c").trace =
      [.log "Processing command: fill form::a::b::c",
       .log "Invalid form command format. Use 'fill form::CSS_SELECTOR::VALUE'"]) :=
  ⟨(c6_fill_form_arity defEnv st0 "fill form::a" (by decide) (by decide)).1,
   (c6_fill_form_arity defEnv st0 "fill form::a::b::c" (by decide) (by decide)).1⟩

/-- C7: `open_application` spawns nothing when the executable path does not
exist; when it exists, exactly one process is spawned, with the command
line given by the executable followed by the optional argument string split
on whitespace. -/
theorem c7_open_application_guard (env : Env) (exe : String) (args : Option String) :
    (env.pathExists exe = false →
      (open_application env exe args).filter Event.isSpawn = []) ∧
    (env.pathExists exe = true →
      (open_application env exe args).filter Event.isSpawn =
        [.spawn (exe :: (match args with
          | some a => if a = "" then [] else pySplitWS a
          | none => []))]) := by
  constructor <;> intro hp <;>
    rcases hsp : env.spawnOk with _ | _ <;>
      simp [open_application, hp, hsp, List.filter_cons, Event.isSpawn]

/-- Witness for `c7_open_application_guard`: no spawn for a missing path;
one whitespace-split spawn for an existing one. -/
theorem c7_open_application_guard_witness :
    ((open_application defEnv "c:/x.exe" none).filter Event.isSpawn = []) ∧
    ((open_application allPathsEnv "c:/x.exe" (some "a  b c")).filter Event.isSpawn =
      [.spawn ["c:/x.exe", "a", "b", "c"]]) := by
  constructor
  · exact (c7_open_application_guard defEnv "c:/x.exe" none).1 rfl
  · exact (c7_open_application_guard allPathsEnv "c:/x.exe" (some "a  b c")).2 rfl

/-- C10: with selenium present but no live session, `fill_form_field` logs
the hint to run `open browser` first and performs no DOM interaction — and
the dispatcher does not enforce the prerequisite: a well-formed `fill form`
command still invokes the handler in that state. -/
theorem c10_fill_form_without_session (env : Env) (st : AState)
    (selector value : String)
    (hsel : env.seleniumAvailable = true) (hs : st.browserSession = none) :
    fill_form_field env st selector value =
      [.log ("Attempting to fill form field '" ++ selector ++
          "' with value '" ++ value ++ "'"),
       .log "No active browser session. Run 'open browser <url>' first."] ∧
    (∀ raw, pyStartsWith (pyNorm raw) "fill form" = true →
      (pySplitDC (pyNorm raw)).length = 3 →
      (execute_command env st raw).trace.filter Event.isCallFillForm =
        [.callFillForm (pyStrip ((pySplitDC (pyNorm raw))[1]?.getD ""))
          (pyStrip ((pySplitDC (pyNorm raw))[2]?.getD ""))]) := by
  constructor
  · simp [fill_form_field, hsel, hs]
  · intro raw h hlen
    have h1 : pyStartsWith (pyNorm raw) "open browser" = false :=
      pyStartsWith_excl _ _ h (by decide) (by decide)
    have h2 : pyStartsWith (pyNorm raw) "launch telegram" = false :=
      pyStartsWith_excl _ _ h (by decide) (by decide)
    have h3 : pyStartsWith (pyNorm raw) "read folder" = false :=
      pyStartsWith_excl _ _ h (by decide) (by decide)
    have h4 : pyStartsWith (pyNorm raw) "take screenshot" = false :=
      pyStartsWith_excl _ _ h (by decide) (by decide)
    have h5 : pyStartsWith (pyNorm raw) "click button" = false :=
      pyStartsWith_excl _ _ h (by decide) (by decide)
    simp [execute_command, h1, h2, h3, h4, h5, h, hlen, fill_form_field, hsel, hs,
      List.filter_cons, Event.isCallFillForm]

/-- Witness for `c10_fill_form_without_session` at `fill form::a::b` from
the initial state. -/
theorem c10_fill_form_without_session_witness :
    fill_form_field defEnv st0 "sel" "val" =
      [.log "Attempting to fill form field 'sel' with value 'val'",
       .log "No active browser session. Run 'open browser <url>' first."] ∧
    (execute_command defEnv st0 "fill form::a::b").trace.filter Event.isCallFillForm =
      [.callFillForm "a" "b"] :=
  ⟨(c10_fill_form_without_session defEnv st0 "sel" "val" rfl rfl).1,
   (c10_fill_form_without_session defEnv st0 "sel" "val" rfl rfl).2
      "fill form::a::b" (by decide) (by decide)⟩

/-- C9 counterexample: the dispatcher lowercases the input line, but the
default folder passed to `read_folder` when the argument is empty is
`str(Path.home())`, which is not lowercased — so a handler can receive an
argument with characters in their original upper case. -/
theorem c9_home_default_keeps_case :
    (execute_command upperHomeEnv st0 "read folder").trace[1]? =
      some (.callReadFolder "C:\\Users\\Public") ∧
    upperFree "C:\\Users\\Public" = false :=
  ⟨rfl, by decide⟩

theorem upperFree_optGetD {l : List String} (i : Nat)
    (h : ∀ p ∈ l, upperFree p = true) : upperFree (l[i]?.getD "") = true := by
  rcases hl : l[i]? with _ | p
  · decide
  · exact h p (List.getElem?_mem hl)

/-- C9 amended: every string argument the dispatcher passes to a handler is
free of ASCII uppercase characters — the whole line is lowercased before
matching, and the URL, folder path, image path, selector and value,
executable and launch arguments, HTTP endpoint and raw JSON body are all
extracted from the lowercased line — with one exception: the default folder
substituted when `read folder` has an empty argument is the user's home
directory in its original case. -/
theorem c9_handler_args_lowercase (env : Env) (st : AState) (raw : String) :
    ∀ e ∈ (execute_command env st raw).trace, ∀ a ∈ e.callArgs,
      upperFree a = true ∨ (a = env.home ∧ e = .callReadFolder env.home) := by
  intro e he a ha
  have hnorm : upperFree (pyNorm raw) = true := upperFree_pyNorm raw
  have hpc : ∀ p ∈ pySplitDC (pyNorm raw), upperFree p = true :=
    upperFree_pySplitDC hnorm
  have hpc2 : ∀ p ∈ pySplitDC2 (pyNorm raw), upperFree p = true :=
    upperFree_pySplitDC2 hnorm
  by_cases hb1 : pyStartsWith (pyNorm raw) "open browser" = true
  · simp [execute_command, hb1] at he
    rcases he with rfl | rfl | he
    · simp [Event.callArgs] at ha
    · simp [Event.callArgs] at ha
      subst ha
      left
      split
      · decide
      · exact upperFree_pyStrip (upperFree_pyDrop _ hnorm)
    · rw [callArgs_eq_nil_of_not_call (open_browser_no_call env st _ e he)] at ha
      simp at ha
  by_cases hb2 : pyStartsWith (pyNorm raw) "launch telegram" = true
  · simp [execute_command, hb1, hb2] at he
    rcases he with rfl | rfl | he
    · simp [Event.callArgs] at ha
    · simp [Event.callArgs] at ha
    · rw [callArgs_eq_nil_of_not_call (launch_telegram_no_call env e he)] at ha
      simp at ha
  by_cases hb3 : pyStartsWith (pyNorm raw) "read folder" = true
  · simp [execute_command, hb1, hb2, hb3] at he
    rcases he with rfl | rfl | he
    · simp [Event.callArgs] at ha
    · simp [Event.callArgs] at ha
      subst ha
      by_cases hf : pyStrip (pyDrop (pyNorm raw) 11) = ""
      · right
        constructor <;> simp [hf]
      · left
        rw [if_neg hf]
        exact upperFree_pyStrip (upperFree_pyDrop _ hnorm)
    · rw [callArgs_eq_nil_of_not_call (read_folder_no_call env _ e he)] at ha
      simp at ha
  by_cases hb4 : pyStartsWith (pyNorm raw) "take screenshot" = true
  · simp [execute_command, hb1, hb2, hb3, hb4] at he
    rcases he with rfl | rfl | he
    · simp [Event.callArgs] at ha
    · simp [Event.callArgs] at ha
    · rw [callArgs_eq_nil_of_not_call (take_screenshot_no_call env _ e he)] at ha
      simp at ha
  by_cases hb5 : pyStartsWith (pyNorm raw) "click button" = true
  · simp [execute_command, hb1, hb2, hb3, hb4, hb5] at he
    rcases he with rfl | rfl | he
    · simp [Event.callArgs] at ha
    · simp [Event.callArgs] at ha
      subst ha
      left
      exact upperFree_pyStrip (upperFree_pyDrop _ hnorm)
    · rw [callArgs_eq_nil_of_not_call (click_button_no_call env _ e he)] at ha
      simp at ha
  by_cases hb6 : pyStartsWith (pyNorm raw) "fill form" = true
  · by_cases hlen : (pySplitDC (pyNorm raw)).length = 3
    · simp [execute_command, hb1, hb2, hb3, hb4, hb5, hb6, hlen] at he
      rcases he with rfl | rfl | he
      · simp [Event.callArgs] at ha
      · simp [Event.callArgs] at ha
        rcases ha with rfl | rfl <;> left <;>
          exact upperFree_pyStrip (hpc _ (List.getElem_mem _))
      · rw [callArgs_eq_nil_of_not_call (fill_form_field_no_call env st _ _ e he)] at ha
        simp at ha
    · simp [execute_command, hb1, hb2, hb3, hb4, hb5, hb6, hlen] at he
      rcases he with rfl | rfl <;> simp [Event.callArgs] at ha
  by_cases hb7 : pyStartsWith (pyNorm raw) "open app" = true
  · by_cases hlen : 2 ≤ (pySplitDC (pyNorm raw)).length
    · simp [execute_command, hb1, hb2, hb3, hb4, hb5, hb6, hb7, hlen] at he
      rcases he with rfl | rfl | he
      · simp [Event.callArgs] at ha
      · simp [Event.callArgs] at ha
        rcases ha with rfl | ha
        · left
          exact upperFree_pyStrip (upperFree_optGetD 1 hpc)
        · left
          obtain ⟨h3, rfl⟩ := ha
          exact upperFree_pyStrip (upperFree_optGetD 2 hpc)
      · rw [callArgs_eq_nil_of_not_call (open_application_no_call env _ _ e he)] at ha
        simp at ha
    · simp [execute_command, hb1, hb2, hb3, hb4, hb5, hb6, hb7, hlen] at he
      rcases he with rfl | rfl <;> simp [Event.callArgs] at ha
  by_cases hb8 : pyStartsWith (pyNorm raw) "send http" = true
  · by_cases hlen : (pySplitDC2 (pyNorm raw)).length = 3
    · rcases hj : env.jsonParse ((pySplitDC2 (pyNorm raw))[2]?.getD "") with _ | payload
      · have hb : 2 < (pySplitDC2 (pyNorm raw)).length := by omega
        rw [List.getElem?_eq_getElem hb, Option.getD_some] at hj
        simp [execute_command, hb1, hb2, hb3, hb4, hb5, hb6, hb7, hb8, hlen, hj] at he
        rcases he with rfl | rfl <;> simp [Event.callArgs] at ha
      · have hb : 2 < (pySplitDC2 (pyNorm raw)).length := by omega
        rw [List.getElem?_eq_getElem hb, Option.getD_some] at hj
        simp [execute_command, hb1, hb2, hb3, hb4, hb5, hb6, hb7, hb8, hlen, hj] at he
        rcases he with rfl | rfl | he
        · simp [Event.callArgs] at ha
        · simp [Event.callArgs] at ha
          rcases ha with rfl | rfl <;> left
          · exact upperFree_pyStrip (hpc2 _ (List.getElem_mem _))
          · exact hpc2 _ (List.getElem_mem _)
        · rw [callArgs_eq_nil_of_not_call (send_http_message_no_call env _ _ e he)] at ha
          simp at ha
    · simp [execute_command, hb1, hb2, hb3, hb4, hb5, hb6, hb7, hb8, hlen] at he
      rcases he with rfl | rfl <;> simp [Event.callArgs] at ha
  by_cases hx : isExitCmd (pyNorm raw)
  · have hx1 : pyNorm raw = "exit" ∨ pyNorm raw = "quit" := hx
    rcases hx1 with hc | hc
    · simp [execute_command, hc,
        show pyStartsWith "exit" "open browser" = false from by decide,
        show pyStartsWith "exit" "launch telegram" = false from by decide,
        show pyStartsWith "exit" "read folder" = false from by decide,
        show pyStartsWith "exit" "take screenshot" = false from by decide,
        show pyStartsWith "exit" "click button" = false from by decide,
        show pyStartsWith "exit" "fill form" = false from by decide,
        show pyStartsWith "exit" "open app" = false from by decide,
        show pyStartsWith "exit" "send http" = false from by decide] at he
      rcases he with rfl | rfl <;> simp [Event.callArgs] at ha
    · simp [execute_command, hc,
        show pyStartsWith "quit" "open browser" = false from by decide,
        show pyStartsWith "quit" "launch telegram" = false from by decide,
        show pyStartsWith "quit" "read folder" = false from by decide,
        show pyStartsWith "quit" "take screenshot" = false from by decide,
        show pyStartsWith "quit" "click button" = false from by decide,
        show pyStartsWith "quit" "fill form" = false from by decide,
        show pyStartsWith "quit" "open app" = false from by decide,
        show pyStartsWith "quit" "send http" = false from by decide] at he
      rcases he with rfl | rfl <;> simp [Event.callArgs] at ha
  · have hx1 : ¬ pyNorm raw = "exit" := fun hh => hx (Or.inl hh)
    have hx2 : ¬ pyNorm raw = "quit" := fun hh => hx (Or.inr hh)
    simp [execute_command, hb1, hb2, hb3, hb4, hb5, hb6, hb7, hb8, hx1, hx2] at he
    rcases he with rfl | rfl <;> simp [Event.callArgs] at ha

/-- Witness for `c9_handler_args_lowercase`: the image path extracted from
`click button IMG.png` reaches the handler lowercased. -/
theorem c9_handler_args_lowercase_witness :
    upperFree "img.png" = true ∨
      ("img.png" = defEnv.home ∧
        Event.callClickButton "img.png" = .callReadFolder defEnv.home) :=
  c9_handler_args_lowercase defEnv st0 "click button IMG.png"
    (.callClickButton "img.png")
    (by
      rw [show (execute_command defEnv st0 "click button IMG.png").trace =
        [.log "Processing command: click button img.png",
         .callClickButton "img.png",
         .log "Attempting to click button using image: img.png",
         .log "Button image not found on screen."] from rfl]
      exact List.mem_cons_of_mem _ (List.mem_cons_self _ _))
    "img.png" (List.mem_singleton.mpr rfl)

/-- C8: a command matching no recognized shape invokes no handler, performs
no side effect (state unchanged, the trace is only the two log lines), and
logs the not-recognized outcome. -/
theorem c8_unrecognized_noop (env : Env) (st : AState) (raw : String)
    (h : recognizedCmd (pyNorm raw) = false) :
    (execute_command env st raw).st = st ∧
    (execute_command env st raw).trace =
      [.log ("Processing command: " ++ pyNorm raw), .log "Command not recognized."] ∧
    (execute_command env st raw).res = .normal := by
  simp only [recognizedCmd, Bool.or_eq_false_iff, decide_eq_false_iff_not] at h
  obtain ⟨⟨⟨⟨⟨⟨⟨⟨⟨h1, h2⟩, h3⟩, h4⟩, h5⟩, h6⟩, h7⟩, h8⟩, h9⟩, h10⟩ := h
  simp [execute_command, h1, h2, h3, h4, h5, h6, h7, h8, h9, h10]

/-- Witness for `c8_unrecognized_noop` at the input `"hello world"`. -/
theorem c8_unrecognized_noop_witness :
    recognizedCmd (pyNorm "hello world") = false ∧
    (execute_command defEnv st0 "hello world").st = st0 ∧
    (execute_command defEnv st0 "hello world").trace =
      [.log ("Processing command: " ++ pyNorm "hello world"), .log "Command not recognized."] ∧
    (execute_command defEnv st0 "hello world").res = .normal :=
  ⟨by decide, c8_unrecognized_noop defEnv st0 "hello world" (by decide)⟩

end WinAssist
